import Mathlib

/-!
Verification of pyvista's array-like normalization layer
(`pyvista/core/validation/_array_wrapper.py`), the theme configuration
objects (`pyvista/plotting/themes.py`) and the `AxesActor.visibility`
property (`pyvista/plotting/axes_actor.py`) against their specification.

Python values are shallowly embedded: scalars are an inductive over
`bool`/`int`/`float`/numpy scalar types (floats carried as exact
rationals), sequences are lists or tuples over embedded values, numpy
arrays are a shape plus flattened data, and raising code returns
`Except PyError`.
-/

deriving instance DecidableEq for Except

namespace PyVista

/-- Python exceptions relevant to the modelled code paths. -/
inductive PyError where
  | valueError : String → PyError
  | typeError : String → PyError
  | keyError : String → PyError
  | indexError : String → PyError
  | attributeError : String → PyError
  deriving DecidableEq, Repr

/-- Numeric scalar values: python's `bool`, `int`, `float` (modelled as an
exact rational; float rounding plays no role in the verified claims) and
numpy scalar types, tagged by their type name. -/
inductive PyNum where
  | bool : Bool → PyNum
  | int : Int → PyNum
  | float : Rat → PyNum
  | npNumber : String → Rat → PyNum
  deriving DecidableEq, Repr

/-- Python numeric types, as returned by `type(element)`. -/
inductive PyType where
  | bool : PyType
  | int : PyType
  | float : PyType
  | npType : String → PyType
  deriving DecidableEq, Repr

/-- The type of an embedded numeric value, python's `type(x)`. -/
def PyNum.typeOf : PyNum → PyType
  | .bool _ => .bool
  | .int _ => .int
  | .float _ => .float
  | .npNumber n _ => .npType n

/-- Whether a python sequence is a `list` or a `tuple` (the sequence
classes preserved by the wrappers). -/
inductive SeqKind where
  | list : SeqKind
  | tuple : SeqKind
  deriving DecidableEq, Repr

/-- A numpy `ndarray`: its shape and flattened data. -/
structure NDArray where
  shape : List Nat
  data : List PyNum
  deriving DecidableEq, Repr

/-- Embedded python values handed to `_ArrayLikeWrapper.__new__`: numeric
scalars, (nested) sequences, numpy arrays, and any other object tagged by
its type name. -/
inductive PyVal where
  | num : PyNum → PyVal
  | seq : SeqKind → List PyVal → PyVal
  | ndarray : NDArray → PyVal
  | obj : String → PyVal

/-- Modelled from the spec: `_is_Number` from
`pyvista/core/_typing_core/_type_guards.py` is not among the sources; the
spec and the wrapper docstring describe the scalar branch as matching
"scalar dtypes (e.g. float, int)", i.e. numeric scalars. -/
def _is_Number : PyVal → Bool
  | .num _ => true
  | _ => false

/-- Modelled from the spec: `_is_NumberSequence1D` from
`pyvista/core/_typing_core/_type_guards.py` is not among the sources; the
spec describes the branch as matching "1D numeric sequences", i.e. a
`list` or `tuple` whose elements are all numeric scalars. -/
def _is_NumberSequence1D : PyVal → Bool
  | .seq _ elems => elems.all _is_Number
  | _ => false

/-- Modelled from the spec: `_is_NumberSequence2D` from
`pyvista/core/_typing_core/_type_guards.py` is not among the sources; the
spec describes the branch as matching "2D numeric nested sequences", i.e.
a `list` or `tuple` whose elements are all 1D numeric sequences. -/
def _is_NumberSequence2D : PyVal → Bool
  | .seq _ elems => elems.all _is_NumberSequence1D
  | _ => false

mutual

/-- Modelled from the spec: helper for `_cast_to_numpy` (from
`pyvista/core/validation/_cast_array.py`, not among the sources). Computes
the shape and flattened data of an array-like value, raising on ragged
nesting or non-numeric content, mirroring `np.asarray`'s failure mode that
the spec describes as "converted to a numpy array via `_cast_to_numpy`". -/
def npFromVal : PyVal → Except PyError (List Nat × List PyNum)
  | .num n => .ok ([], [n])
  | .ndarray a => .ok (a.shape, a.data)
  | .obj _ => .error (.typeError "invalid array element")
  | .seq _ elems => do
      let subs ← npFromList elems
      match subs with
      | [] => .ok ([0], [])
      | (s₀, _) :: _ =>
          if subs.all (fun p => p.1 = s₀) then
            .ok (elems.length :: s₀, (subs.map Prod.snd).flatten)
          else
            .error (.valueError "ragged nested sequence")

/-- Modelled from the spec: maps `npFromVal` over the elements of a
nested sequence, propagating the first error. -/
def npFromList : List PyVal → Except PyError (List (List Nat × List PyNum))
  | [] => .ok []
  | v :: vs => do
      let h ← npFromVal v
      let t ← npFromList vs
      .ok (h :: t)

end

/-- Modelled from the spec: `_cast_to_numpy` from
`pyvista/core/validation/_cast_array.py` is not among the sources; per the
spec it converts any other array-like input to a numpy array, raising
`ValueError`/`TypeError` on invalid input. -/
def _cast_to_numpy (v : PyVal) : Except PyError NDArray :=
  (npFromVal v).map fun p => ⟨p.1, p.2⟩

/-- The wrapper classes of `_array_wrapper.py`. `_Sequence1DWrapper` and
`_Sequence2DWrapper` carry the stored `_array` (sequence kind plus
elements) and the cached `_dtype` (initialized to `None`);
`_NumberWrapper` carries the scalar; `_NumpyArrayWrapper` the array. -/
inductive Wrapper where
  | _NumpyArrayWrapper : NDArray → Wrapper
  | _Sequence1DWrapper : SeqKind → List PyVal → Option PyType → Wrapper
  | _Sequence2DWrapper : SeqKind → List PyVal → Option PyType → Wrapper
  | _NumberWrapper : PyNum → Wrapper

/-- Input to `_ArrayLikeWrapper.__new__`: either a plain value or an
already-wrapped instance. -/
inductive WrapInput where
  | val : PyVal → WrapInput
  | wrapped : Wrapper → WrapInput

/-- A simple stand-in for `reprlib.repr(_array)` (truncation is not
modelled; only the message prefix matters to the claims). -/
def pyReprVal : PyVal → String
  | .num (.bool b) => if b then "True" else "False"
  | .num (.int i) => toString i
  | .num (.float q) => toString q
  | .num (.npNumber n q) => n ++ "(" ++ toString q ++ ")"
  | .seq .list es => "[" ++ String.intercalate ", " (es.map fun _ => "...") ++ "]"
  | .seq .tuple es => "(" ++ String.intercalate ", " (es.map fun _ => "...") ++ ")"
  | .ndarray _ => "array(...)"
  | .obj s => "<" ++ s ++ ">"

/-- The message of the `ValueError` raised by `_ArrayLikeWrapper.__new__`
when dispatch or numpy casting fails. -/
def notValidMsg (v : PyVal) : String :=
  "The following array is not valid:\n\t" ++ pyReprVal v

/-- The `try` body of `_ArrayLikeWrapper.__new__` for non-wrapper inputs:
the `isinstance(np.ndarray)` / `_is_NumberSequence1D` /
`_is_NumberSequence2D` / `_is_Number` `elif` chain, with the fallthrough
casting to numpy. The match on constructors compiles the chain: the 1D/2D
guards hold only on sequences, `_is_Number` holds exactly on numeric
scalars. -/
def dispatch : PyVal → Except PyError Wrapper
  | .ndarray a => .ok (._NumpyArrayWrapper a)
  | .seq k es =>
      if _is_NumberSequence1D (.seq k es) then
        .ok (._Sequence1DWrapper k es none)
      else if _is_NumberSequence2D (.seq k es) then
        .ok (._Sequence2DWrapper k es none)
      else
        (_cast_to_numpy (.seq k es)).map ._NumpyArrayWrapper
  | .num n => .ok (._NumberWrapper n)
  | .obj s => (_cast_to_numpy (.obj s)).map ._NumpyArrayWrapper

/-- The full `_ArrayLikeWrapper.__new__`: already-wrapped inputs are
returned as-is; any `ValueError` or `TypeError` raised in the `try` body
is converted to the "is not valid" `ValueError`. -/
def _ArrayLikeWrapper_new : WrapInput → Except PyError Wrapper
  | .wrapped w => .ok w
  | .val v =>
      match dispatch v with
      | .ok w => .ok w
      | .error (.valueError _) => .error (.valueError (notValidMsg v))
      | .error (.typeError _) => .error (.valueError (notValidMsg v))
      | .error e => .error e

/-- The `_array` stored by the built-in wrappers (`None` for
`_NumpyArrayWrapper`, whose `_array` is a numpy array). -/
def Wrapper.storedBuiltin : Wrapper → Option PyVal
  | ._NumberWrapper n => some (.num n)
  | ._Sequence1DWrapper k es _ => some (.seq k es)
  | ._Sequence2DWrapper k es _ => some (.seq k es)
  | ._NumpyArrayWrapper _ => none

/-- Python's `len`, raising `TypeError` on non-sequences (for numpy
arrays it is the first axis, raising on 0-d arrays). -/
def pyLen : PyVal → Except PyError Nat
  | .seq _ es => .ok es.length
  | .ndarray a =>
      match a.shape with
      | [] => .error (.typeError "len() of unsized object")
      | n :: _ => .ok n
  | .num _ => .error (.typeError "object of type number has no len()")
  | .obj _ => .error (.typeError "object has no len()")

/-- The `shape` property of each wrapper class: `()` for
`_NumberWrapper`; `(len(self._array),)` for `_Sequence1DWrapper`;
`(len(self._array), len(self._array[0]))` for `_Sequence2DWrapper`
(raising `IndexError` when the outer sequence is empty); the numpy shape
for `_NumpyArrayWrapper`. -/
def Wrapper.shapeE : Wrapper → Except PyError (List Nat)
  | ._NumberWrapper _ => .ok []
  | ._Sequence1DWrapper _ es _ => .ok [es.length]
  | ._Sequence2DWrapper _ es _ =>
      match es with
      | [] => .error (.indexError "list index out of range")
      | r :: _ => (pyLen r).map fun c => [es.length, c]
  | ._NumpyArrayWrapper a => .ok a.shape

/-- The `ndim` property of each wrapper class: the literals 0, 1, 2, and
numpy's ndim (the length of the shape). -/
def Wrapper.ndim : Wrapper → Nat
  | ._NumberWrapper _ => 0
  | ._Sequence1DWrapper _ _ _ => 1
  | ._Sequence2DWrapper _ _ _ => 2
  | ._NumpyArrayWrapper a => a.shape.length

/-- The `size` property of each wrapper class: 1 for `_NumberWrapper`;
`len(self._array)` for `_Sequence1DWrapper`;
`len(self._array) * len(self._array[0])` for `_Sequence2DWrapper`; and
numpy's size (product of the shape) for `_NumpyArrayWrapper`. -/
def Wrapper.sizeE : Wrapper → Except PyError Nat
  | ._NumberWrapper _ => .ok 1
  | ._Sequence1DWrapper _ es _ => .ok es.length
  | ._Sequence2DWrapper _ es _ =>
      match es with
      | [] => .error (.indexError "list index out of range")
      | r :: _ => (pyLen r).map fun c => es.length * c
  | ._NumpyArrayWrapper a => .ok a.shape.prod

/-- The final dtype resolution of `_get_dtype_from_iterable` once the
element loop has finished with the accumulated set of element types:
`float` for an empty set, `int` for `{int}` or `{bool, int}`, `bool` for
`{bool}`, and `TypeError` otherwise. -/
def resolveDtypes (dtypes : Finset PyType) : Except PyError PyType :=
  if dtypes.card = 0 then .ok .float
  else if dtypes = {PyType.int} ∨ dtypes = {PyType.bool, PyType.int} then .ok .int
  else if dtypes = {PyType.bool} then .ok .bool
  else .error (.typeError "Unexpected error: dtype should be numeric.")

/-- The element loop of `_get_dtype_from_iterable`: returns `float` as
soon as an element of exact type `float` is seen, otherwise accumulates
each element's type into the set. -/
def dtypeLoop : List PyNum → Finset PyType → Except PyError PyType
  | [], dtypes => resolveDtypes dtypes
  | e :: rest, dtypes =>
      if e.typeOf = .float then .ok .float
      else dtypeLoop rest (insert e.typeOf dtypes)

/-- The `_get_dtype_from_iterable` function of `_array_wrapper.py`. -/
def _get_dtype_from_iterable (l : List PyNum) : Except PyError PyType :=
  dtypeLoop l ∅

/-- The numeric value of a python number (`bool` counts as 0/1). -/
def PyNum.toRat : PyNum → Rat
  | .bool b => if b then 1 else 0
  | .int i => (i : Rat)
  | .float q => q
  | .npNumber _ q => q

/-- Calling a dtype on a number, python's `dtype(x)`: `float(x)` keeps the
value, `int(x)` truncates toward zero, `bool(x)` tests non-zeroness, and a
numpy scalar type produces a numpy scalar of that type. -/
def dtypeApply (d : PyType) (n : PyNum) : PyNum :=
  match d with
  | .float => .float n.toRat
  | .int => .int (if 0 ≤ n.toRat then ⌊n.toRat⌋ else ⌈n.toRat⌉)
  | .bool => .bool (decide (n.toRat ≠ 0))
  | .npType s => .npNumber s n.toRat

/-- Statement-side form of `dtype(element)` on a sequence element; the
wrapped built-in sequences hold numeric scalars only (non-numbers are
returned unchanged here and are excluded by the theorems). -/
def castElem (d : PyType) : PyVal → PyVal
  | .num n => .num (dtypeApply d n)
  | v => v

/-- `dtype(item)` on a sequence element, raising `TypeError` when the
element is not a number. -/
def castElemE (d : PyType) : PyVal → Except PyError PyVal
  | .num n => .ok (.num (dtypeApply d n))
  | _ => .error (.typeError "argument must be a number")

/-- One row of `_Sequence2DWrapper.change_dtype`:
`sub_array.__class__(dtype(item) for item in sub_array)`. -/
def castRowE (d : PyType) : PyVal → Except PyError PyVal
  | .seq k rs => do
      let rs' ← rs.mapM (castElemE d)
      .ok (.seq k rs')
  | _ => .error (.typeError "object is not iterable")

/-- Statement-side form of `castRowE` on well-formed rows. -/
def castRow (d : PyType) : PyVal → PyVal
  | .seq k rs => .seq k (rs.map (castElem d))
  | v => v

/-- The `change_dtype` methods: `_NumberWrapper` returns early when
`self.dtype is dtype` and otherwise stores `dtype(self._array)`;
`_Sequence1DWrapper` rebuilds `self._array.__class__(dtype(x) for x in
self._array)` and caches `_dtype = dtype`; `_Sequence2DWrapper` rebuilds
both nesting levels with their classes and caches `_dtype = dtype`;
`_NumpyArrayWrapper` converts via `astype` (elementwise, shape kept). -/
def Wrapper.change_dtype : Wrapper → PyType → Except PyError Wrapper
  | ._NumberWrapper n, d =>
      if n.typeOf = d then .ok (._NumberWrapper n)
      else .ok (._NumberWrapper (dtypeApply d n))
  | ._Sequence1DWrapper k es _, d => do
      let es' ← es.mapM (castElemE d)
      .ok (._Sequence1DWrapper k es' (some d))
  | ._Sequence2DWrapper k es _, d => do
      let es' ← es.mapM (castRowE d)
      .ok (._Sequence2DWrapper k es' (some d))
  | ._NumpyArrayWrapper a, d =>
      .ok (._NumpyArrayWrapper ⟨a.shape, a.data.map (dtypeApply d)⟩)

theorem exceptBind_ok {α β ε : Type _} (a : α) (f : α → Except ε β) :
    (Except.ok a >>= f) = f a := rfl

theorem exceptBind_error {α β ε : Type _} (e : ε) (f : α → Except ε β) :
    ((Except.error e : Except ε α) >>= f) = .error e := rfl

mutual

theorem npFromVal_error_shape : ∀ (v : PyVal) (e : PyError), npFromVal v = .error e →
    (∃ m, e = .valueError m) ∨ (∃ m, e = .typeError m)
  | .num _, e => by simp [npFromVal]
  | .ndarray _, e => by simp [npFromVal]
  | .obj _, e => by
      intro h
      simp only [npFromVal, Except.error.injEq] at h
      exact Or.inr ⟨_, h.symm⟩
  | .seq k elems, e => by
      intro h
      rw [npFromVal] at h
      cases hl : npFromList elems with
      | error e2 =>
          rw [hl] at h
          simp only [exceptBind_error, Except.error.injEq] at h
          exact h ▸ npFromList_error_shape elems e2 hl
      | ok subs =>
          rw [hl] at h
          simp only [exceptBind_ok] at h
          cases subs with
          | nil => simp at h
          | cons p rest =>
              by_cases hall : (p :: rest).all (fun q => q.1 = p.1) <;>
                simp [hall] at h
              exact Or.inl ⟨_, h.symm⟩

theorem npFromList_error_shape : ∀ (l : List PyVal) (e : PyError), npFromList l = .error e →
    (∃ m, e = .valueError m) ∨ (∃ m, e = .typeError m)
  | [], e => by simp [npFromList]
  | v :: vs, e => by
      intro h
      rw [npFromList] at h
      cases hv : npFromVal v with
      | error e2 =>
          rw [hv] at h
          simp only [exceptBind_error, Except.error.injEq] at h
          exact h ▸ npFromVal_error_shape v e2 hv
      | ok p =>
          rw [hv] at h
          simp only [exceptBind_ok] at h
          cases hl : npFromList vs with
          | error e2 =>
              rw [hl] at h
              simp only [exceptBind_error, Except.error.injEq] at h
              exact h ▸ npFromList_error_shape vs e2 hl
          | ok t => rw [hl] at h; simp [exceptBind_ok] at h

end

theorem cast_to_numpy_error_shape (v : PyVal) (e : PyError) (h : _cast_to_numpy v = .error e) :
    (∃ m, e = .valueError m) ∨ (∃ m, e = .typeError m) := by
  unfold _cast_to_numpy at h
  cases hv : npFromVal v with
  | error e2 =>
      rw [hv] at h
      simp only [Except.map, Except.error.injEq] at h
      exact h ▸ npFromVal_error_shape v e2 hv
  | ok p => rw [hv] at h; simp [Except.map] at h

theorem dispatch_error_shape (v : PyVal) (e : PyError) (h : dispatch v = .error e) :
    (∃ m, e = .valueError m) ∨ (∃ m, e = .typeError m) := by
  cases v with
  | ndarray a => simp [dispatch] at h
  | num n => simp [dispatch] at h
  | obj s =>
      rw [dispatch] at h
      cases hc : _cast_to_numpy (PyVal.obj s) with
      | error e2 =>
          rw [hc] at h
          simp only [Except.map, Except.error.injEq] at h
          exact h ▸ cast_to_numpy_error_shape _ e2 hc
      | ok a => rw [hc] at h; simp [Except.map] at h
  | seq k es =>
      rw [dispatch] at h
      by_cases h1 : _is_NumberSequence1D (.seq k es)
      · simp [h1] at h
      · by_cases h2 : _is_NumberSequence2D (.seq k es)
        · simp [h1, h2] at h
        · simp only [h1, h2, if_false, Bool.false_eq_true] at h
          cases hc : _cast_to_numpy (PyVal.seq k es) with
          | error e2 =>
              rw [hc] at h
              simp only [Except.map, Except.error.injEq] at h
              exact h ▸ cast_to_numpy_error_shape _ e2 hc
          | ok a => rw [hc] at h; simp [Except.map] at h

/-- C1: `_ArrayLikeWrapper.__new__` dispatches on the input's shape and
type: an `_ArrayLikeWrapper` is returned unchanged; a numpy ndarray is
wrapped as-is in a `_NumpyArrayWrapper`; a 1D numeric sequence as-is in a
`_Sequence1DWrapper`; a 2D nested numeric sequence as-is in a
`_Sequence2DWrapper`; a scalar number as-is in a `_NumberWrapper`; every
other input is converted via `_cast_to_numpy` and wrapped in a
`_NumpyArrayWrapper`. -/
theorem _ArrayLikeWrapper_new_dispatch (x : WrapInput) :
    (∀ w, x = .wrapped w → _ArrayLikeWrapper_new x = .ok w) ∧
    (∀ a, x = .val (.ndarray a) →
      _ArrayLikeWrapper_new x = .ok (._NumpyArrayWrapper a)) ∧
    (∀ k es, x = .val (.seq k es) → _is_NumberSequence1D (.seq k es) = true →
      _ArrayLikeWrapper_new x = .ok (._Sequence1DWrapper k es none)) ∧
    (∀ k es, x = .val (.seq k es) → _is_NumberSequence1D (.seq k es) = false →
      _is_NumberSequence2D (.seq k es) = true →
      _ArrayLikeWrapper_new x = .ok (._Sequence2DWrapper k es none)) ∧
    (∀ n, x = .val (.num n) → _ArrayLikeWrapper_new x = .ok (._NumberWrapper n)) ∧
    (∀ v a, x = .val v → _is_Number v = false → _is_NumberSequence1D v = false →
      _is_NumberSequence2D v = false → (∀ arr, v ≠ .ndarray arr) →
      _cast_to_numpy v = .ok a →
      _ArrayLikeWrapper_new x = .ok (._NumpyArrayWrapper a)) := by
  refine ⟨?_, ?_, ?_, ?_, ?_, ?_⟩
  · rintro w rfl; rfl
  · rintro a rfl; rfl
  · rintro k es rfl h1
    simp [_ArrayLikeWrapper_new, dispatch, h1]
  · rintro k es rfl h1 h2
    simp [_ArrayLikeWrapper_new, dispatch, h1, h2]
  · rintro n rfl; rfl
  · rintro v a rfl hnum h1 h2 hnd hcast
    cases v with
    | num n => simp [_is_Number] at hnum
    | ndarray arr => exact absurd rfl (hnd arr)
    | seq k es => simp [_ArrayLikeWrapper_new, dispatch, h1, h2, hcast, Except.map]
    | obj s => simp [_ArrayLikeWrapper_new, dispatch, hcast, Except.map]

/-- Witness for C1: a 1D list is wrapped as-is (clause 3 at a concrete
input). -/
theorem _ArrayLikeWrapper_new_dispatch_witness :
    _ArrayLikeWrapper_new (.val (.seq .list [.num (.int 1), .num (.int 2)])) =
      .ok (._Sequence1DWrapper .list [.num (.int 1), .num (.int 2)] none) :=
  (_ArrayLikeWrapper_new_dispatch
    (.val (.seq .list [.num (.int 1), .num (.int 2)]))).2.2.1
    .list [.num (.int 1), .num (.int 2)] rfl (by decide)

/-- C2: `_ArrayLikeWrapper.__new__` either returns a wrapper or raises
`ValueError` with the "The following array is not valid" message; it never
propagates a `TypeError`. -/
theorem _ArrayLikeWrapper_new_total (x : WrapInput) :
    ((∃ w, _ArrayLikeWrapper_new x = .ok w) ∨
      (∃ v, x = .val v ∧
        _ArrayLikeWrapper_new x = .error (.valueError (notValidMsg v)))) ∧
    (∀ m, _ArrayLikeWrapper_new x ≠ .error (.typeError m)) := by
  cases x with
  | wrapped w => exact ⟨.inl ⟨w, rfl⟩, by simp [_ArrayLikeWrapper_new]⟩
  | val v =>
    cases hd : dispatch v with
    | ok w =>
        refine ⟨.inl ⟨w, ?_⟩, ?_⟩ <;> simp [_ArrayLikeWrapper_new, hd]
    | error e =>
        rcases dispatch_error_shape v e hd with ⟨m, rfl⟩ | ⟨m, rfl⟩ <;>
          exact ⟨.inr ⟨v, rfl, by simp [_ArrayLikeWrapper_new, hd]⟩,
            by simp [_ArrayLikeWrapper_new, hd]⟩

theorem new_val_ok (v : PyVal) (w : Wrapper)
    (h : _ArrayLikeWrapper_new (.val v) = .ok w) : dispatch v = .ok w := by
  cases hd : dispatch v with
  | ok w' => simp [_ArrayLikeWrapper_new, hd] at h; simp [h]
  | error e => cases e <;> simp [_ArrayLikeWrapper_new, hd] at h

/-- C3: wrapping is idempotent — re-wrapping a wrapper returns the very
same wrapper — and the built-in wrappers store the input object itself. -/
theorem wrap_idempotent (x : WrapInput) (w : Wrapper)
    (h : _ArrayLikeWrapper_new x = .ok w) :
    _ArrayLikeWrapper_new (.wrapped w) = .ok w ∧
    (∀ v u, x = .val v → w.storedBuiltin = some u → u = v) := by
  refine ⟨rfl, ?_⟩
  rintro v u rfl hsb
  have hd := new_val_ok v w h
  cases v with
  | ndarray a =>
      rw [dispatch] at hd
      cases hd
      simp [Wrapper.storedBuiltin] at hsb
  | num n =>
      rw [dispatch] at hd
      cases hd
      simp [Wrapper.storedBuiltin] at hsb
      exact hsb.symm
  | obj s =>
      rw [dispatch] at hd
      cases hc : _cast_to_numpy (PyVal.obj s) with
      | error e => rw [hc] at hd; simp [Except.map] at hd
      | ok a =>
          rw [hc] at hd
          simp only [Except.map, Except.ok.injEq] at hd
          subst hd
          simp [Wrapper.storedBuiltin] at hsb
  | seq k es =>
      rw [dispatch] at hd
      by_cases h1 : _is_NumberSequence1D (.seq k es)
      · simp only [h1, if_true] at hd
        cases hd
        simp [Wrapper.storedBuiltin] at hsb
        exact hsb.symm
      · by_cases h2 : _is_NumberSequence2D (.seq k es)
        · simp only [h1, h2, if_false, if_true, Bool.false_eq_true] at hd
          cases hd
          simp [Wrapper.storedBuiltin] at hsb
          exact hsb.symm
        · simp only [h1, h2, if_false, Bool.false_eq_true] at hd
          cases hc : _cast_to_numpy (PyVal.seq k es) with
          | error e => rw [hc] at hd; simp [Except.map] at hd
          | ok a =>
              rw [hc] at hd
              simp only [Except.map, Except.ok.injEq] at hd
              subst hd
              simp [Wrapper.storedBuiltin] at hsb

/-- Witness for C3: wrapping a scalar, then wrapping the wrapper, returns
the same wrapper, whose stored array is the input itself. -/
theorem wrap_idempotent_witness :
    _ArrayLikeWrapper_new (.wrapped (._NumberWrapper (.int 5))) =
        .ok (._NumberWrapper (.int 5)) ∧
    ∀ v u, (WrapInput.val (.num (.int 5))) = .val v →
      (Wrapper._NumberWrapper (.int 5)).storedBuiltin = some u → u = v :=
  wrap_idempotent (.val (.num (.int 5))) (._NumberWrapper (.int 5)) rfl

/-- C8: shape, ndim and size are mutually consistent on every wrapper —
ndim is the length of the shape and size the product of its entries — with
the concrete per-class shapes: `()` for a number, `(n,)` for a 1D sequence
of length n, `(r, c)` for a 2D sequence with r rows whose first row has
length c. -/
theorem wrapper_shape_consistent (w : Wrapper) (s : List Nat)
    (h : w.shapeE = .ok s) :
    w.ndim = s.length ∧ w.sizeE = .ok s.prod ∧
    (∀ n, w = ._NumberWrapper n → s = []) ∧
    (∀ k es d, w = ._Sequence1DWrapper k es d → s = [es.length]) ∧
    (∀ k es d rk row rest, w = ._Sequence2DWrapper k es d →
      es = .seq rk row :: rest → s = [es.length, row.length]) := by
  cases w with
  | _NumberWrapper n =>
      simp [Wrapper.shapeE] at h
      subst h
      simp [Wrapper.ndim, Wrapper.sizeE]
  | _Sequence1DWrapper k es d =>
      simp [Wrapper.shapeE] at h
      subst h
      simp [Wrapper.ndim, Wrapper.sizeE]
  | _Sequence2DWrapper k es d =>
      cases es with
      | nil => simp [Wrapper.shapeE] at h
      | cons r rest =>
          rw [Wrapper.shapeE] at h
          cases hr : pyLen r with
          | error e => rw [hr] at h; simp [Except.map] at h
          | ok c =>
              rw [hr] at h
              simp only [Except.map, Except.ok.injEq] at h
              subst h
              refine ⟨rfl, ?_, by simp, by simp, ?_⟩
              · simp [Wrapper.sizeE, hr, Except.map]
              · rintro k' es' d' rk row rest' heq hes
                injection heq with hk hes' hd'
                subst hes'
                injection hes with h1 h2
                subst h1; subst h2
                simp [pyLen] at hr
                simp [hr]
  | _NumpyArrayWrapper a =>
      simp [Wrapper.shapeE] at h
      subst h
      simp [Wrapper.ndim, Wrapper.sizeE]

/-- Witness for C8 at a concrete 2D wrapper of shape (2, 3). -/
theorem wrapper_shape_consistent_witness :
    (Wrapper._Sequence2DWrapper .list
      [.seq .list [.num (.int 1), .num (.int 2), .num (.int 3)],
       .seq .list [.num (.int 4), .num (.int 5), .num (.int 6)]] none).ndim = 2 ∧
    (Wrapper._Sequence2DWrapper .list
      [.seq .list [.num (.int 1), .num (.int 2), .num (.int 3)],
       .seq .list [.num (.int 4), .num (.int 5), .num (.int 6)]] none).sizeE =
      .ok 6 :=
  ⟨(wrapper_shape_consistent
      (Wrapper._Sequence2DWrapper .list
        [.seq .list [.num (.int 1), .num (.int 2), .num (.int 3)],
         .seq .list [.num (.int 4), .num (.int 5), .num (.int 6)]] none)
      [2, 3] rfl).1,
   (wrapper_shape_consistent
      (Wrapper._Sequence2DWrapper .list
        [.seq .list [.num (.int 1), .num (.int 2), .num (.int 3)],
         .seq .list [.num (.int 4), .num (.int 5), .num (.int 6)]] none)
      [2, 3] rfl).2.1⟩

/-- The element loop traverses elements whose exact type is never `float`
by accumulating their types into the set. -/
theorem dtypeLoop_no_float (l : List PyNum) :
    ∀ s : Finset PyType, (∀ e ∈ l, e.typeOf ≠ .float) →
    dtypeLoop l s = resolveDtypes (s ∪ (l.map PyNum.typeOf).toFinset) := by
  induction l with
  | nil => intro s _; simp [dtypeLoop]
  | cons e rest ih =>
      intro s hf
      have he : e.typeOf ≠ .float := hf e (by simp)
      rw [dtypeLoop, if_neg he, ih _ (fun e' he' => hf e' (by simp [he']))]
      congr 1
      ext t
      simp [Finset.mem_union, Finset.mem_insert]

/-- The element loop returns `float` as soon as a `float` element occurs. -/
theorem dtypeLoop_float (l : List PyNum) (s : Finset PyType)
    (hf : ∃ e ∈ l, e.typeOf = .float) : dtypeLoop l s = .ok .float := by
  induction l generalizing s with
  | nil => simp at hf
  | cons e rest ih =>
      rw [dtypeLoop]
      by_cases he : e.typeOf = .float
      · simp [he]
      · rcases hf with ⟨e', he', hf'⟩
        rcases List.mem_cons.mp he' with rfl | hmem
        · exact absurd hf' he
        · rw [if_neg he]
          exact ih _ ⟨e', hmem, hf'⟩

/-- C9: `_get_dtype_from_iterable` returns `float` when any element's
exact type is `float` or the iterable is empty; `int` when the set of
element types is `{int}` or `{bool, int}`; `bool` when it is `{bool}`; and
raises `TypeError` for every other combination of element types. -/
theorem get_dtype_from_iterable_spec (l : List PyNum) :
    ((∃ e ∈ l, e.typeOf = .float) → _get_dtype_from_iterable l = .ok .float) ∧
    (l = [] → _get_dtype_from_iterable l = .ok .float) ∧
    (((l.map PyNum.typeOf).toFinset = {PyType.int} ∨
        (l.map PyNum.typeOf).toFinset = {PyType.bool, PyType.int}) →
      _get_dtype_from_iterable l = .ok .int) ∧
    ((l.map PyNum.typeOf).toFinset = {PyType.bool} →
      _get_dtype_from_iterable l = .ok .bool) ∧
    ((∀ e ∈ l, e.typeOf ≠ .float) → l ≠ [] →
      (l.map PyNum.typeOf).toFinset ≠ {PyType.int} →
      (l.map PyNum.typeOf).toFinset ≠ {PyType.bool, PyType.int} →
      (l.map PyNum.typeOf).toFinset ≠ {PyType.bool} →
      ∃ m, _get_dtype_from_iterable l = .error (.typeError m)) := by
  have hnf : ∀ (hf : ∀ e ∈ l, e.typeOf ≠ .float),
      _get_dtype_from_iterable l = resolveDtypes (l.map PyNum.typeOf).toFinset := by
    intro hf
    unfold _get_dtype_from_iterable
    rw [dtypeLoop_no_float l ∅ hf, Finset.empty_union]
  refine ⟨?_, ?_, ?_, ?_, ?_⟩
  · intro hf
    exact dtypeLoop_float l ∅ hf
  · rintro rfl; rfl
  · intro hset
    have hf : ∀ e ∈ l, e.typeOf ≠ .float := by
      intro e he hfl
      have : PyType.float ∈ (l.map PyNum.typeOf).toFinset := by
        simp [List.mem_toFinset]
        exact ⟨e, he, hfl⟩
      rcases hset with hs | hs <;> rw [hs] at this <;> simp at this
    rw [hnf hf]
    rcases hset with hs | hs <;> rw [hs] <;> decide
  · intro hset
    have hf : ∀ e ∈ l, e.typeOf ≠ .float := by
      intro e he hfl
      have : PyType.float ∈ (l.map PyNum.typeOf).toFinset := by
        simp [List.mem_toFinset]
        exact ⟨e, he, hfl⟩
      rw [hset] at this; simp at this
    rw [hnf hf, hset]
    decide
  · intro hf hne h1 h2 h3
    rw [hnf hf]
    unfold resolveDtypes
    rw [if_neg, if_neg (by tauto), if_neg h3]
    · exact ⟨_, rfl⟩
    · simp only [Finset.card_eq_zero]
      intro hempty
      rcases List.exists_mem_of_ne_nil l hne with ⟨e, he⟩
      have : e.typeOf ∈ (l.map PyNum.typeOf).toFinset := by
        simp [List.mem_toFinset]
        exact ⟨e, he, rfl⟩
      rw [hempty] at this
      simp at this

/-- Witness for C9: `{bool, int}` resolves to `int`. -/
theorem get_dtype_from_iterable_spec_witness :
    _get_dtype_from_iterable [.bool true, .int 2] = .ok .int :=
  (get_dtype_from_iterable_spec [.bool true, .int 2]).2.2.1 (Or.inr (by decide))

/-- On a sequence whose members are all numeric scalars, the elementwise
`dtype(item)` loop succeeds and equals the statement-side map. -/
theorem mapM_castElemE (d : PyType) (es : List PyVal)
    (h : ∀ v ∈ es, ∃ n, v = PyVal.num n) :
    es.mapM (castElemE d) = .ok (es.map (castElem d)) := by
  induction es with
  | nil => rfl
  | cons v vs ih =>
      rcases h v (by simp) with ⟨n, rfl⟩
      rw [List.mapM_cons, ih (fun u hu => h u (by simp [hu]))]
      rfl

/-- On a nested sequence whose rows are sequences of numeric scalars, the
rowwise rebuild succeeds and equals the statement-side map. -/
theorem mapM_castRowE (d : PyType) (es : List PyVal)
    (h : ∀ v ∈ es, ∃ rk rs, v = PyVal.seq rk rs ∧ ∀ u ∈ rs, ∃ n, u = PyVal.num n) :
    es.mapM (castRowE d) = .ok (es.map (castRow d)) := by
  induction es with
  | nil => rfl
  | cons v vs ih =>
      rcases h v (by simp) with ⟨rk, rs, rfl, hrs⟩
      rw [List.mapM_cons]
      rw [show castRowE d (PyVal.seq rk rs) = .ok (castRow d (PyVal.seq rk rs)) from ?_]
      · rw [ih (fun u hu => h u (by simp [hu]))]
        rfl
      · rw [castRowE, mapM_castElemE d rs hrs]
        rfl

/-- C10: `change_dtype` preserves the container and the shape — the outer
(and for 2D the inner) sequence class and all lengths are unchanged, every
element is replaced by `dtype(element)`, the cached `_dtype` becomes the
new dtype — and a `_NumberWrapper` whose dtype already matches is left
unchanged. -/
theorem change_dtype_spec (d : PyType) :
    (∀ k es d₀, (∀ v ∈ es, ∃ n, v = PyVal.num n) →
      Wrapper.change_dtype (._Sequence1DWrapper k es d₀) d =
        .ok (._Sequence1DWrapper k (es.map (castElem d)) (some d)) ∧
      (es.map (castElem d)).length = es.length) ∧
    (∀ k es d₀,
      (∀ v ∈ es, ∃ rk rs, v = PyVal.seq rk rs ∧ ∀ u ∈ rs, ∃ n, u = PyVal.num n) →
      Wrapper.change_dtype (._Sequence2DWrapper k es d₀) d =
        .ok (._Sequence2DWrapper k (es.map (castRow d)) (some d)) ∧
      Wrapper.shapeE (._Sequence2DWrapper k (es.map (castRow d)) (some d)) =
        Wrapper.shapeE (._Sequence2DWrapper k es d₀)) ∧
    (∀ n : PyNum, n.typeOf = d →
      Wrapper.change_dtype (._NumberWrapper n) d = .ok (._NumberWrapper n)) := by
  refine ⟨?_, ?_, ?_⟩
  · intro k es d₀ h
    refine ⟨?_, by simp⟩
    rw [Wrapper.change_dtype, mapM_castElemE d es h]
    rfl
  · intro k es d₀ h
    constructor
    · rw [Wrapper.change_dtype, mapM_castRowE d es h]
      rfl
    · cases es with
      | nil => rfl
      | cons r rest =>
          rcases h r (by simp) with ⟨rk, rs, rfl, _⟩
          simp [Wrapper.shapeE, castRow, pyLen]
  · intro n hn
    rw [Wrapper.change_dtype, if_pos hn]

/-- Witness for C10: converting a 1D tuple of ints to float keeps the
tuple class and length, and a matching-dtype number is unchanged. -/
theorem change_dtype_spec_witness :
    Wrapper.change_dtype (._Sequence1DWrapper .tuple
        [.num (.int 1), .num (.int 2)] none) .float =
      .ok (._Sequence1DWrapper .tuple
        [.num (.float 1), .num (.float 2)] (some .float)) ∧
    Wrapper.change_dtype (._NumberWrapper (.int 7)) .int =
      .ok (._NumberWrapper (.int 7)) := by
  constructor
  · have := ((change_dtype_spec .float).1 .tuple
      [.num (.int 1), .num (.int 2)] none
      (by intro v hv
          simp only [List.mem_cons, List.not_mem_nil, or_false] at hv
          rcases hv with rfl | rfl
          · exact ⟨.int 1, rfl⟩
          · exact ⟨.int 2, rfl⟩)).1
    rw [this]
    rfl
  · exact (change_dtype_spec .int).2.2 (.int 7) rfl

namespace Themes

/-- Primitive (non-`_ThemeConfig`) python values held in theme slots:
`None`, numbers, strings, `Color` objects (modelled by their value;
`colors.py` is not among the sources), lists and tuples. -/
inductive PyPrim where
  | none : PyPrim
  | bool : Bool → PyPrim
  | int : Int → PyPrim
  | float : Rat → PyPrim
  | str : String → PyPrim
  | color : String → PyPrim
  | listP : List PyPrim → PyPrim
  | tupleP : List PyPrim → PyPrim

mutual

/-- A `_ThemeConfig` class: the list of its slot names (leading
underscore included) paired with the default value its `__init__`
assigns. -/
inductive CfgDesc where
  | mk : List (String × TVal) → CfgDesc

/-- A python value in the theme layer: a primitive, a `_ThemeConfig`
instance (its class plus its slot values), or a plain `dict`. -/
inductive TVal where
  | prim : PyPrim → TVal
  | config : CfgDesc → List (String × TVal) → TVal
  | dict : List (String × TVal) → TVal

end

/-- The slot names and defaults of a class, `cls()` in `from_dict`. -/
def CfgDesc.defaults : CfgDesc → List (String × TVal)
  | .mk l => l

mutual

/-- The value stored by `_ThemeConfig.to_dict` for one slot: nested
configs recurse through their `to_dict` (`hasattr(value, 'to_dict')`
holds exactly for `_ThemeConfig` instances), everything else is stored
as-is. -/
def toDictVal : TVal → TVal
  | .config _ slots => .dict (toDictSlots slots)
  | .prim p => .prim p
  | .dict d => .dict d

/-- The `_ThemeConfig.to_dict` loop over `_all__slots__()`: each slot key
with the first character (the leading underscore) removed. -/
def toDictSlots : List (String × TVal) → List (String × TVal)
  | [] => []
  | (k, v) :: rest => (k.drop 1, toDictVal v) :: toDictSlots rest

end

/-- Direct slot access `getattr(obj, name)` with the underscored slot
name, raising `AttributeError` when absent. -/
def getattrRaw (slots : List (String × TVal)) (name : String) :
    Except PyError TVal :=
  match slots.find? (fun p => p.1 == name) with
  | some p => .ok p.2
  | none => .error (.attributeError name)

/-- Direct slot assignment `setattr(obj, name, v)` with the underscored
slot name, replacing the slot's value. -/
def setattrRaw : List (String × TVal) → String → TVal →
    Except PyError (List (String × TVal))
  | [], name, _ => .error (.attributeError name)
  | (k, w) :: rest, name, v =>
      if k == name then .ok ((k, v) :: rest)
      else
        match setattrRaw rest name v with
        | .ok r => .ok ((k, w) :: r)
        | .error e => .error e

/-- Python `==` on primitives: numbers compare by value across
`bool`/`int`/`float`, strings, `None` and colors by value, lists with
lists and tuples with tuples elementwise, everything else unequal. -/
def PyPrim.toRatQ : PyPrim → Option Rat
  | .bool b => some (if b then 1 else 0)
  | .int i => some (i : Rat)
  | .float q => some q
  | _ => Option.none

/-- Numeric comparison of a number with a primitive (`bool` as 0/1). -/
def numEqPrim (x : Rat) : PyPrim → Bool
  | .bool c => x == (if c then (1 : Rat) else 0)
  | .int i => x == (i : Rat)
  | .float q => x == q
  | _ => false

mutual

def pyEqPrim : PyPrim → PyPrim → Bool
  | .none, b => match b with | .none => true | _ => false
  | .bool a, b => numEqPrim (if a then 1 else 0) b
  | .int a, b => numEqPrim (a : Rat) b
  | .float a, b => numEqPrim a b
  | .str a, b => match b with | .str c => a == c | _ => false
  | .color a, b => match b with | .color c => a == c | _ => false
  | .listP xs, b => match b with | .listP ys => pyEqPrimList xs ys | _ => false
  | .tupleP xs, b => match b with | .tupleP ys => pyEqPrimList xs ys | _ => false

def pyEqPrimList : List PyPrim → List PyPrim → Bool
  | [], ys => match ys with | [] => true | _ => false
  | x :: xs, ys =>
      match ys with
      | [] => false
      | y :: ys' => pyEqPrim x y && pyEqPrimList xs ys'

end

/-- `isinstance(attr, (tuple, list))` in `_ThemeConfig.__eq__`. -/
def isListOrTuple : TVal → Bool
  | .prim p => match p with | .listP _ => true | .tupleP _ => true | _ => false
  | .config _ _ => false
  | .dict _ => false

/-- `tuple(x)`: lists, tuples, strings and dicts (their keys) are
iterable; a `_ThemeConfig` only defines `__getitem__` over attribute-name
strings, so `tuple()` on it raises `TypeError`, as do non-iterable
primitives. -/
def tupleOfE : TVal → Except PyError (List PyPrim)
  | .prim p =>
      match p with
      | .listP xs => .ok xs
      | .tupleP xs => .ok xs
      | .str s => .ok (s.toList.map fun c => .str (String.singleton c))
      | _ => .error (.typeError "object is not iterable")
  | .dict entries => .ok (entries.map fun p => .str p.1)
  | .config _ _ => .error (.typeError "object is not iterable")

mutual

/-- Python `==` on theme-layer values: `_ThemeConfig.__eq__` for two
configs, dict equality for two dicts, `pyEqPrim` on primitives, `False`
across categories (`__eq__` returns `False` on non-`_ThemeConfig`
operands). -/
def pyEqE : TVal → TVal → Except PyError Bool
  | .prim a, .prim b => .ok (pyEqPrim a b)
  | .config _ s1, .config _ s2 => cfgEqGo s1 s2
  | .dict d1, .dict d2 =>
      if d1.length = d2.length then dictEqGo d1 d2 else .ok false
  | _, _ => .ok false

/-- The loop of `_ThemeConfig.__eq__` over `other.__slots__`: for each
slot, `attr = getattr(self, attr_name)`; return `False` when
`isinstance(attr, (tuple, list)) and tuple(attr) != tuple(other_attr)`
(short-circuiting) `or not attr == other_attr`. -/
def cfgEqGo (selfSlots : List (String × TVal)) :
    List (String × TVal) → Except PyError Bool
  | [] => .ok true
  | (name, otherAttr) :: rest =>
      match getattrRaw selfSlots name with
      | .error e => .error e
      | .ok attr =>
          if isListOrTuple attr then
            match tupleOfE attr with
            | .error e => .error e
            | .ok ta =>
                match tupleOfE otherAttr with
                | .error e => .error e
                | .ok tb =>
                    if !(pyEqPrimList ta tb) then .ok false
                    else
                      match pyEqE attr otherAttr with
                      | .error e => .error e
                      | .ok eq2 =>
                          if !eq2 then .ok false else cfgEqGo selfSlots rest
          else
            match pyEqE attr otherAttr with
            | .error e => .error e
            | .ok eq2 => if !eq2 then .ok false else cfgEqGo selfSlots rest

/-- Python dict equality, iterating the second dict's items (assuming
distinct keys). -/
def dictEqGo (d1 : List (String × TVal)) :
    List (String × TVal) → Except PyError Bool
  | [] => .ok true
  | (k, v) :: rest =>
      match d1.find? (fun p => p.1 == k) with
      | none => .ok false
      | some p =>
          match pyEqE p.2 v with
          | .error e => .error e
          | .ok b => if !b then .ok false else dictEqGo d1 rest

end

mutual

/-- A `_ThemeConfig` instance conforms to a class description: it is an
instance of that class and its slots conform to the class's slots. -/
def Conforms : CfgDesc → TVal → Prop
  | .mk defaults, t =>
      match t with
      | .config c slots => c = .mk defaults ∧ SlotsConf defaults slots
      | _ => False

/-- Slot-by-slot conformance: same slot names in the same order, each
name an underscored identifier occurring once, with each value conforming
to its default. -/
def SlotsConf : List (String × TVal) → List (String × TVal) → Prop
  | [], vs => vs = []
  | (k, dv) :: ds, vs =>
      match vs with
      | [] => False
      | (k', v) :: vs' =>
          k' = k ∧ "_" ++ k.drop 1 = k ∧
          (∀ p ∈ ds, p.1 ≠ k) ∧ (∀ p ∈ vs', p.1 ≠ k) ∧
          SlotValConf dv v ∧ SlotsConf ds vs'

/-- A slot value conforms to its default: a primitive where the default
is a primitive, an instance of the same config class where the default is
a config. -/
def SlotValConf : TVal → TVal → Prop
  | .prim _, v => ∃ p, v = .prim p
  | .config acls _, v => Conforms acls v
  | .dict _, _ => False

end

mutual

theorem pyEqPrim_refl : ∀ p : PyPrim, pyEqPrim p p = true
  | .none => rfl
  | .bool a => by cases a <;> simp [pyEqPrim, numEqPrim]
  | .int a => by simp [pyEqPrim, numEqPrim]
  | .float a => by simp [pyEqPrim, numEqPrim]
  | .str a => by simp [pyEqPrim]
  | .color a => by simp [pyEqPrim]
  | .listP xs => by rw [pyEqPrim]; exact pyEqPrimList_refl xs
  | .tupleP xs => by rw [pyEqPrim]; exact pyEqPrimList_refl xs

theorem pyEqPrimList_refl : ∀ l : List PyPrim, pyEqPrimList l l = true
  | [] => rfl
  | x :: xs => by
      rw [pyEqPrimList, pyEqPrim_refl x, pyEqPrimList_refl xs]
      rfl

end

/-- The literal `Theme.__slots__` list of `themes.py`, in source order
(including its duplicated `_before_close_callback` entry). -/
def Theme_slots : List String :=
  ["_name", "_background", "_jupyter_backend", "_trame", "_full_screen",
   "_window_size", "_image_scale", "_camera", "_notebook", "_font",
   "_auto_close", "_cmap", "_color", "_color_cycler", "_above_range_color",
   "_below_range_color", "_nan_color", "_edge_color", "_line_width",
   "_point_size", "_outline_color", "_floor_color", "_colorbar_orientation",
   "_colorbar_horizontal", "_colorbar_vertical", "_show_scalar_bar",
   "_show_edges", "_show_vertices", "_lighting", "_interactive",
   "_render_points_as_spheres", "_render_lines_as_tubes",
   "_transparent_background", "_title", "_axes", "_multi_samples",
   "_multi_rendering_splitting_position", "_volume_mapper", "_smooth_shading",
   "_depth_peeling", "_silhouette", "_slider_style", "_return_cpos",
   "_hidden_line_removal", "_anti_aliasing",
   "_enable_camera_orientation_widget", "_split_sharp_edges",
   "_sharp_edges_feature_angle", "_before_close_callback", "_allow_empty_mesh",
   "_lighting_params", "_interpolate_before_map", "_opacity",
   "_before_close_callback", "_logo_file", "_edge_opacity"]

/-- The literal `Theme._defaults` registry of `themes.py`. -/
def Theme_defaults_map : List (String × String) :=
  [("dark", "dark_theme"), ("default", "document_theme"),
   ("document", "document_theme"), ("document_pro", "document_pro_theme"),
   ("paraview", "paraview_theme"), ("testing", "testing_theme"),
   ("vtk", "vtk_theme")]

/-- The python `repr` of a list of strings, as interpolated into the
`set_plot_theme` error message (`Theme.defaults()`). -/
def pyStrListRepr (xs : List String) : String :=
  "[" ++ String.intercalate ", " (xs.map fun s => "\x27" ++ s ++ "\x27") ++ "]"

/-- Python's `str.lower` on an ASCII character (the registered theme
names are ASCII). -/
def lowerChar (c : Char) : Char :=
  if 65 ≤ c.toNat ∧ c.toNat ≤ 90 then Char.ofNat (c.toNat + 32) else c

/-- Python's `str.lower`, as applied to the theme name. -/
def pyLower (s : String) : String := ⟨s.data.map lowerChar⟩

/-- An argument as observed by `isinstance` checks: a `str`, a `Theme`
instance (carried by its slots), or any other object tagged by its type
name. -/
inductive PyArg where
  | str : String → PyArg
  | theme : List (String × TVal) → PyArg
  | other : String → PyArg

/-- The copying loop of `Theme.load_theme`:
`setattr(self, attr_name, getattr(theme, attr_name))` over
`Theme.__slots__`, mutating `self` in place; an exception propagates with
the partially-updated state. -/
def copySlots : List String → List (String × TVal) → List (String × TVal) →
    Except PyError Unit × List (String × TVal)
  | [], self, _ => (.ok (), self)
  | n :: rest, self, src =>
      match getattrRaw src n with
      | .error e => (.error e, self)
      | .ok v =>
          match setattrRaw self n v with
          | .error e => (.error e, self)
          | .ok self' => copySlots rest self' src

/-- `Theme.load_theme`: a `str` argument is first loaded from file (the
json read of the module-level `load_theme` is abstracted as `fileLoad`);
a non-`Theme` argument raises `TypeError` before any assignment;
otherwise every slot in `Theme.__slots__` is copied from the source. -/
def Theme_load_theme
    (fileLoad : String → Except PyError (List (String × TVal)))
    (self : List (String × TVal)) : PyArg →
    Except PyError Unit × List (String × TVal)
  | .str s =>
      match fileLoad s with
      | .error e => (.error e, self)
      | .ok t => copySlots Theme_slots self t
  | .theme t => copySlots Theme_slots self t
  | .other _ =>
      (.error (.typeError
        "``theme`` must be a pyvista theme like ``pyvista.plotting.themes.Theme``."),
       self)

/-- `Theme.from_default`: `cls._defaults[name]` (a `KeyError` when the
name is not registered) followed by calling the named classmethod; the
bodies of the default-theme constructors (`dark_theme`, `document_theme`,
...) are abstracted as `builders`. -/
def Theme_from_default (builders : String → List (String × TVal))
    (name : String) : Except PyError (List (String × TVal)) :=
  match Theme_defaults_map.lookup name with
  | Option.none => .error (.keyError name)
  | some attr => .ok (builders attr)

/-- `set_plot_theme`: a `str` is lowercased and resolved among the
default themes (`KeyError` becomes a `ValueError` naming the available
themes), a `Theme` is loaded directly into the global theme `g`, and any
other argument raises `TypeError`. Python's `str.lower` is modelled by
`String.toLower` (the registered names are ASCII). -/
def set_plot_theme (builders : String → List (String × TVal))
    (fileLoad : String → Except PyError (List (String × TVal)))
    (g : List (String × TVal)) : PyArg →
    Except PyError Unit × List (String × TVal)
  | .str s =>
      let s' := pyLower s
      match Theme_from_default builders s' with
      | .error (.keyError _) =>
          (.error (.valueError ("Theme \x27" ++ s' ++
            "\x27 not found in PyVista\x27s default themes: " ++
            pyStrListRepr (Theme_defaults_map.map Prod.fst))), g)
      | .error e => (.error e, g)
      | .ok t => Theme_load_theme fileLoad g (.theme t)
  | .theme t => Theme_load_theme fileLoad g (.theme t)
  | .other tyname =>
      (.error (.typeError
        ("Expected a ``pyvista.plotting.themes.Theme`` or ``str``, not " ++
          tyname)), g)

/-- Whether an object has a slot of the given name. -/
def hasSlot (slots : List (String × TVal)) (n : String) : Bool :=
  slots.any (fun p => p.1 == n)

theorem getattrRaw_cons (ak : String) (av : TVal) (tl : List (String × TVal))
    (n : String) :
    getattrRaw ((ak, av) :: tl) n =
      if (ak == n) = true then .ok av else getattrRaw tl n := by
  unfold getattrRaw
  cases h : (ak == n) <;> simp [List.find?_cons, h]

theorem getattrRaw_ok_of_hasSlot (slots : List (String × TVal)) (n : String)
    (h : hasSlot slots n = true) : ∃ v, getattrRaw slots n = .ok v := by
  induction slots with
  | nil => simp [hasSlot] at h
  | cons a tl ih =>
      obtain ⟨ak, av⟩ := a
      rw [getattrRaw_cons]
      by_cases hak : (ak == n) = true
      · rw [if_pos hak]
        exact ⟨av, rfl⟩
      · rw [if_neg hak]
        apply ih
        simpa [hasSlot, hak] using h

theorem setattrRaw_spec (self : List (String × TVal)) (n : String) (v : TVal)
    (h : hasSlot self n = true) :
    ∃ self', setattrRaw self n v = .ok self' ∧
      getattrRaw self' n = .ok v ∧
      (∀ m, m ≠ n → getattrRaw self' m = getattrRaw self m) ∧
      (∀ m, hasSlot self' m = hasSlot self m) := by
  induction self with
  | nil => simp [hasSlot] at h
  | cons a tl ih =>
      obtain ⟨ak, av⟩ := a
      by_cases hak : (ak == n) = true
      · refine ⟨(ak, v) :: tl, ?_, ?_, ?_, ?_⟩
        · rw [setattrRaw, if_pos hak]
        · rw [getattrRaw_cons, if_pos hak]
        · intro m hm
          have hakm : (ak == m) = false := by
            have heq : ak = n := by simpa using hak
            exact beq_eq_false_iff_ne.mpr (heq ▸ Ne.symm hm)
          rw [getattrRaw_cons, getattrRaw_cons, hakm]
          simp
        · intro m
          simp [hasSlot]
      · have htl : hasSlot tl n = true := by
          simpa [hasSlot, hak] using h
        obtain ⟨tl', h1, h2, h3, h4⟩ := ih htl
        refine ⟨(ak, av) :: tl', ?_, ?_, ?_, ?_⟩
        · rw [setattrRaw, if_neg (by simp_all), h1]
        · rw [getattrRaw_cons, if_neg hak]
          exact h2
        · intro m hm
          rw [getattrRaw_cons, getattrRaw_cons]
          by_cases ham : (ak == m) = true
          · rw [if_pos ham, if_pos ham]
          · rw [if_neg ham, if_neg ham]
            exact h3 m hm
        · intro m
          have h4m := h4 m
          simp only [hasSlot, List.any_cons] at h4m ⊢
          rw [h4m]

theorem copySlots_spec (names : List String) :
    ∀ (self src : List (String × TVal)),
      (∀ n ∈ names, hasSlot src n = true ∧ hasSlot self n = true) →
      ∃ self', copySlots names self src = (.ok (), self') ∧
        (∀ m, getattrRaw self' m =
          if m ∈ names then getattrRaw src m else getattrRaw self m) := by
  induction names with
  | nil =>
      intro self src _
      exact ⟨self, rfl, by simp⟩
  | cons n rest ih =>
      intro self src h
      obtain ⟨hsrc, hself⟩ := h n (by simp)
      obtain ⟨v, hv⟩ := getattrRaw_ok_of_hasSlot src n hsrc
      obtain ⟨self1, hset, hget1, hother1, hhas1⟩ := setattrRaw_spec self n v hself
      obtain ⟨self', hcopy, hfinal⟩ := ih self1 src (fun m hm =>
        ⟨(h m (by simp [hm])).1, by rw [hhas1]; exact (h m (by simp [hm])).2⟩)
      refine ⟨self', ?_, ?_⟩
      · simp only [copySlots, hv, hset]
        exact hcopy
      · intro m
        rw [hfinal m]
        by_cases hm : m ∈ rest
        · simp [hm]
        · by_cases hmn : m = n
          · subst hmn
            simp only [hm, if_false, List.mem_cons, true_or, if_true]
            rw [hget1, hv]
          · simp only [hm, if_false, List.mem_cons, hmn, false_or]
            exact hother1 m hmn

/-- C6: `Theme.load_theme` with a `Theme` argument copies every slot of
`Theme.__slots__` from source to target, so that afterwards they agree
attribute-for-attribute; any non-`str` non-`Theme` argument raises
`TypeError` before any assignment, leaving the target unchanged. -/
theorem Theme_load_theme_spec
    (fileLoad : String → Except PyError (List (String × TVal)))
    (self src : List (String × TVal))
    (h : ∀ n ∈ Theme_slots, hasSlot src n = true ∧ hasSlot self n = true) :
    (∃ self', Theme_load_theme fileLoad self (.theme src) = (.ok (), self') ∧
      ∀ n ∈ Theme_slots, getattrRaw self' n = getattrRaw src n) ∧
    (∀ tyname, Theme_load_theme fileLoad self (.other tyname) =
      (.error (.typeError
        "``theme`` must be a pyvista theme like ``pyvista.plotting.themes.Theme``."),
       self)) := by
  constructor
  · obtain ⟨self', h1, h2⟩ := copySlots_spec Theme_slots self src h
    exact ⟨self', h1, fun n hn => by rw [h2 n]; simp [hn]⟩
  · intro tyname
    rfl

/-- A concrete full-slot theme object for the witnesses. -/
def sampleThemeSlots (base : Int) : List (String × TVal) :=
  Theme_slots.map fun n => (n, TVal.prim (.int base))

theorem sampleThemeSlots_hasSlot (base : Int) :
    ∀ n ∈ Theme_slots, hasSlot (sampleThemeSlots base) n = true := by
  intro n hn
  unfold hasSlot sampleThemeSlots
  rw [List.any_eq_true]
  exact ⟨(n, TVal.prim (.int base)), List.mem_map_of_mem _ hn, by simp⟩

/-- Witness for C6: loading one full theme into another succeeds, and a
non-theme argument returns the `TypeError` with the target unchanged. -/
theorem Theme_load_theme_spec_witness :
    (∃ self', Theme_load_theme (fun _ => .error (.valueError "no file"))
        (sampleThemeSlots 0) (.theme (sampleThemeSlots 1)) = (.ok (), self') ∧
      ∀ n ∈ Theme_slots,
        getattrRaw self' n = getattrRaw (sampleThemeSlots 1) n) ∧
    (∀ tyname, Theme_load_theme (fun _ => .error (.valueError "no file"))
        (sampleThemeSlots 0) (.other tyname) =
      (.error (.typeError
        "``theme`` must be a pyvista theme like ``pyvista.plotting.themes.Theme``."),
       sampleThemeSlots 0)) :=
  Theme_load_theme_spec (fun _ => .error (.valueError "no file"))
    (sampleThemeSlots 0) (sampleThemeSlots 1)
    (fun n hn => ⟨sampleThemeSlots_hasSlot 1 n hn, sampleThemeSlots_hasSlot 0 n hn⟩)

/-- C5: `set_plot_theme` lowercases a string argument and raises a
`ValueError` naming the available themes when it is not registered;
raises `TypeError` on a non-`str` non-`Theme` argument (leaving the
global theme unchanged in both cases); and otherwise overwrites the
global theme with the selected theme without error. -/
theorem set_plot_theme_spec
    (builders : String → List (String × TVal))
    (fileLoad : String → Except PyError (List (String × TVal)))
    (g : List (String × TVal)) :
    (∀ s : String, Theme_defaults_map.lookup (pyLower s) = Option.none →
      set_plot_theme builders fileLoad g (.str s) =
        (.error (.valueError ("Theme \x27" ++ pyLower s ++
          "\x27 not found in PyVista\x27s default themes: " ++
          pyStrListRepr (Theme_defaults_map.map Prod.fst))), g)) ∧
    (∀ s attr, Theme_defaults_map.lookup (pyLower s) = some attr →
      (∀ n ∈ Theme_slots, hasSlot (builders attr) n = true ∧ hasSlot g n = true) →
      ∃ g', set_plot_theme builders fileLoad g (.str s) = (.ok (), g') ∧
        ∀ n ∈ Theme_slots, getattrRaw g' n = getattrRaw (builders attr) n) ∧
    (∀ src, (∀ n ∈ Theme_slots, hasSlot src n = true ∧ hasSlot g n = true) →
      ∃ g', set_plot_theme builders fileLoad g (.theme src) = (.ok (), g') ∧
        ∀ n ∈ Theme_slots, getattrRaw g' n = getattrRaw src n) ∧
    (∀ tyname, set_plot_theme builders fileLoad g (.other tyname) =
      (.error (.typeError
        ("Expected a ``pyvista.plotting.themes.Theme`` or ``str``, not " ++
          tyname)), g)) := by
  refine ⟨?_, ?_, ?_, ?_⟩
  · intro s hnone
    simp only [set_plot_theme, Theme_from_default, hnone]
  · intro s attr hsome h
    obtain ⟨g', h1, h2⟩ := copySlots_spec Theme_slots g (builders attr) h
    refine ⟨g', ?_, fun n hn => by rw [h2 n]; simp [hn]⟩
    simp only [set_plot_theme, Theme_from_default, hsome, Theme_load_theme]
    exact h1
  · intro src h
    obtain ⟨g', h1, h2⟩ := copySlots_spec Theme_slots g src h
    exact ⟨g', h1, fun n hn => by rw [h2 n]; simp [hn]⟩
  · intro tyname
    rfl

/-- Witness for C5: the string "DARK" is lowercased and resolved, loading
the dark default theme into the global theme; an unregistered name gives
the `ValueError`; a non-str non-Theme argument gives the `TypeError`. -/
theorem set_plot_theme_spec_witness :
    (∃ g', set_plot_theme (fun _ => sampleThemeSlots 7)
        (fun _ => .error (.valueError "no file"))
        (sampleThemeSlots 0) (.str "DARK") = (.ok (), g') ∧
      ∀ n ∈ Theme_slots,
        getattrRaw g' n = getattrRaw (sampleThemeSlots 7) n) ∧
    set_plot_theme (fun _ => sampleThemeSlots 7)
        (fun _ => .error (.valueError "no file"))
        (sampleThemeSlots 0) (.str "no-such-theme") =
      (.error (.valueError ("Theme \x27no-such-theme\x27 not found in " ++
        "PyVista\x27s default themes: " ++
        pyStrListRepr (Theme_defaults_map.map Prod.fst))),
       sampleThemeSlots 0) := by
  constructor
  · exact (set_plot_theme_spec (fun _ => sampleThemeSlots 7)
      (fun _ => .error (.valueError "no file")) (sampleThemeSlots 0)).2.1
      "DARK" "dark_theme" (by decide)
      (fun n hn => ⟨sampleThemeSlots_hasSlot 7 n hn, sampleThemeSlots_hasSlot 0 n hn⟩)
  · have := (set_plot_theme_spec (fun _ => sampleThemeSlots 7)
      (fun _ => .error (.valueError "no file")) (sampleThemeSlots 0)).1
      "no-such-theme" (by decide)
    simpa using this

end Themes

/-- Modelled from the spec: the native `vtkAxesActor` lives in VTK,
outside this repository; per the spec the python property is a "thin
get/set adapter over native object methods". VTK stores visibility as a C
int flag read back by `GetVisibility`. -/
structure VtkAxesActor where
  visibilityState : Int

/-- Modelled from the spec: native `vtkAxesActor.SetVisibility`, storing
the argument as the int flag. -/
def SetVisibility (a : VtkAxesActor) (v : Int) : VtkAxesActor :=
  { a with visibilityState := v }

/-- Modelled from the spec: native `vtkAxesActor.GetVisibility`,
returning the stored int flag. -/
def GetVisibility (a : VtkAxesActor) : Int :=
  a.visibilityState

/-- Python's bool-to-int coercion applied when a `bool` crosses into the
native `int` parameter. -/
def pyBoolToInt (b : Bool) : Int := if b then 1 else 0

/-- The `AxesActor.visibility` getter: `bool(self.GetVisibility())` —
the native int is coerced with `bool()` (non-zero is `True`). -/
def visibility_get (a : VtkAxesActor) : Bool :=
  decide (GetVisibility a ≠ 0)

/-- The `AxesActor.visibility` setter: `self.SetVisibility(value)`. -/
def visibility_set (a : VtkAxesActor) (b : Bool) : VtkAxesActor :=
  SetVisibility a (pyBoolToInt b)

/-- C7: `AxesActor.visibility` is a faithful get/set adapter — after
setting any boolean, the getter returns exactly that boolean, and the
getter is the `bool()` coercion of the native integer state. -/
theorem visibility_adapter (a : VtkAxesActor) (b : Bool) :
    visibility_get (visibility_set a b) = b ∧
    (visibility_get a = true ↔ GetVisibility a ≠ 0) := by
  constructor
  · cases b <;> simp [visibility_get, visibility_set, SetVisibility,
      GetVisibility, pyBoolToInt]
  · simp [visibility_get]

end PyVista

